import Mathlib

/-!
Verification development for a bidirectional Splitwise/YNAB synchronizer.

The repository has four Python modules:
  * `sw.py` — Ledger A (Splitwise) adapter (`SW`),
  * `ynab.py` — Ledger B (YNAB) adapter (`YNABClient`),
  * `state_manager.py` — persistent sync cursor (`StateManager`),
  * `main.py` — the synchronization engine (`ynab_splitwise_transfer`)
    with the two passes `sw_to_ynab` (A→B) and `ynab_to_sw` (B→A).

This file gives a shallow embedding of the data model and of the code paths
the claims are about.  Instants are modelled as rationals counting days on a
fixed timeline (one timezone; the code normalizes everything into the user
timezone, so a single timeline is faithful); Python `timedelta(days=7)` is
the rational 7.  Monetary amounts are rationals; Python `int(x)` on a number
is truncation toward zero, embedded as `pyInt`.  Fallible Python code is
embedded with `Except PyErr`; results of calls to the two remote APIs enter
the engine functions as explicit parameters.
-/

/-- Exceptions distinguished by the embedded code paths. -/
inductive PyErr where
  | typeError (msg : String)
  | osError
  | apiError (msg : String)
deriving DecidableEq, Repr

/-- A timezone-fixed instant: rational days on a single timeline. -/
abbrev Instant := Rat

/-- Python `int(x)` on a real number truncates toward zero. -/
def pyInt (q : Rat) : Int :=
  if 0 ≤ q then ⌊q⌋ else ⌈q⌉

/-- Day number of a Gregorian calendar date (Julian day number formula),
used to place concrete calendar dates on the `Instant` timeline. -/
def rataDie (y m d : Int) : Int :=
  let a := (14 - m) / 12
  let yy := y + 4800 - a
  let mm := m + 12 * a - 3
  d + (153 * mm + 2) / 5 + 365 * yy + yy / 4 - yy / 100 + yy / 400 - 32045

/-! ## Ledger A adapter (`sw.py`, class `SW`) -/

/-- One entry of `expense.getRepayments()`: `from` owes, the debt flows to
`to`; `getAmount()` is a decimal string, embedded exactly as a rational. -/
structure Repayment where
  fromUser : Nat
  toUser : Nat
  amount : Rat
deriving DecidableEq, Repr

/-- An upstream Splitwise expense object as `SW.get_expenses` reads it. -/
structure SWExpense where
  id : Nat
  description : String
  deletedAt : Option String
  date : String
  createdAt : String
  updatedAt : String
  repayments : List Repayment
deriving DecidableEq, Repr

/-- One dictionary of the list returned by `SW.get_expenses`
(src/sw.py lines 49-79). -/
structure OwedExpense where
  id : String
  description : String
  deleted_time : Option String
  date : String
  created_time : String
  updated_time : String
  amount : Rat
deriving DecidableEq, Repr

/-- The `owed_expense` dictionary as the per-repayment loop body of
`SW.get_expenses` leaves it after processing repayment `r` (src/sw.py
lines 55-71): all non-amount fields are copied from the expense, and
`amount` is `-r.amount` when the current user is the lender (`getFromUser`),
`r.amount` when the current user is the borrower (`getToUser`), else `0`. -/
def owedRecord (uid : Nat) (e : SWExpense) (r : Repayment) : OwedExpense :=
  { id := toString e.id
    description := e.description
    deleted_time := e.deletedAt
    date := e.date
    created_time := e.createdAt
    updated_time := e.updatedAt
    amount :=
      if r.fromUser = uid then -r.amount
      else if r.toUser = uid then r.amount
      else 0 }

/-- The per-expense body of `SW.get_expenses` (src/sw.py lines 50-76).
In the source a single dictionary `owed_expense` is created once per
expense, then the loop over `repayments` mutates it in place and appends
the same object once per repayment; every appended entry therefore aliases
the state left by the LAST repayment.  The denotation is `k` copies of the
record determined by the last repayment, where `k` is the number of
repayments, and no record when the repayment list is empty. -/
def processExpense (uid : Nat) (e : SWExpense) : List OwedExpense :=
  match e.repayments.getLast? with
  | none => []
  | some r => List.replicate e.repayments.length (owedRecord uid e r)

/-- The post-fetch processing of `SW.get_expenses`: the concatenation of the
per-expense outputs over the fetched upstream expenses. -/
def get_expenses_process (uid : Nat) (fetched : List SWExpense) : List OwedExpense :=
  fetched.flatMap (processExpense uid)

/-- `self.limit`, set in `SW.__init__` (src/sw.py line 20). -/
def SW.limit : Nat := 100

/-- Modelled from the upstream API contract (the third-party Splitwise
client library `Splitwise.getExpenses`, which is not part of this
repository): a list query with page limit `limit` returns at most `limit`
of the matching records; the server-side window predicate is abstract. -/
def apiGetExpenses (query : SWExpense → Bool) (db : List SWExpense)
    (limit : Nat) : List SWExpense :=
  (db.filter query).take limit

/-- The upstream call made by `SW.get_expenses` (src/sw.py line 43): it
always passes `limit=self.limit`. -/
def get_expenses_fetch (query : SWExpense → Bool) (db : List SWExpense) :
    List SWExpense :=
  apiGetExpenses query db SW.limit

/-- The keyword parameters accepted by `SW.get_expenses`
(src/sw.py line 31: `def get_expenses(self, dated_before=None, dated_after=None)`). -/
def getExpensesKeywordParams : List String := ["dated_before", "dated_after"]

/-- The keyword arguments passed at the call site in `sw_to_ynab`
(src/main.py line 98: `self.sw.get_expenses(updated_after=updated_after_str)`). -/
def swToYnabFetchKwargs : List String := ["updated_after"]

/-- Python call binding: passing a keyword that is not among the callee
keyword parameters raises `TypeError` before the body runs. -/
def bindKeywords (params kwargs : List String) : Except PyErr Unit :=
  if kwargs.all (fun k => params.contains k) then Except.ok ()
  else Except.error (PyErr.typeError "unexpected keyword argument")

/-- The fetch step of `sw_to_ynab` (src/main.py lines 95-99): the call-site
keywords are bound against the signature of `SW.get_expenses`; only on a
successful binding would the adapter body run on the upstream result. -/
def swToYnabFetchCall (uid : Nat) (upstream : List SWExpense) :
    Except PyErr (List OwedExpense) :=
  match bindKeywords getExpensesKeywordParams swToYnabFetchKwargs with
  | Except.error e => Except.error e
  | Except.ok _ => Except.ok (get_expenses_process uid upstream)

/-! ## Sync state store (`state_manager.py`, class `StateManager`)

Two layers.  The file layer (`FileRead`) embeds the read path of the three
load operations, at exactly the granularity the code distinguishes with its
`except` clauses.  The logical layer (`SyncState`) is the cursor held by a
run when the backing file is valid (the single-process assumption of the
design); the save and add operations are its read-modify-write updates. -/

/-- A JSON value found under an ids key of the state file: either an
iterable of strings (`set(...)` succeeds) or a value `set(...)` rejects
with `TypeError`. -/
inductive IdsVal where
  | iterable (ids : List String)
  | nonIterable
deriving DecidableEq, Repr

/-- A JSON value found under `last_sync_date`:
  * `falsy` — a falsy value, `if last_sync:` fails and `None` is returned;
  * `parsable t` — a string `datetime.fromisoformat` accepts, denoting `t`
    after normalization into the user timezone;
  * `badString` — a truthy string `fromisoformat` rejects (`ValueError`);
  * `nonString` — a truthy non-string, `fromisoformat` raises `TypeError`. -/
inductive LSDVal where
  | falsy
  | parsable (t : Instant)
  | badString
  | nonString
deriving DecidableEq, Repr

/-- The decoded JSON object of a state file; `none` means the key is absent
(`state.get` returns the default). -/
structure StateJson where
  last_sync_date : Option LSDVal
  synced_transaction_ids : Option IdsVal
  synced_expense_ids : Option IdsVal
deriving DecidableEq, Repr

/-- Outcome of opening and decoding the backing state file:
  * `absent` — `os.path.exists` is false;
  * `ioError` — the file exists but `open`/`read` raises `OSError`;
  * `badJson` — `json.load` raises `JSONDecodeError`;
  * `ok st` — the file decodes to the object `st`. -/
inductive FileRead where
  | absent
  | ioError
  | badJson
  | ok (st : StateJson)
deriving DecidableEq, Repr

/-- `StateManager.get_last_sync_date` (src/state_manager.py lines 26-54).
The `except` clause catches only `JSONDecodeError`, `KeyError` and
`ValueError`; an `OSError` from `open`, and the `TypeError` raised by
`fromisoformat` on a non-string, propagate. -/
def get_last_sync_date (f : FileRead) : Except PyErr (Option Instant) :=
  match f with
  | FileRead.absent => Except.ok none
  | FileRead.ioError => Except.error PyErr.osError
  | FileRead.badJson => Except.ok none
  | FileRead.ok st =>
    match st.last_sync_date with
    | none => Except.ok none
    | some LSDVal.falsy => Except.ok none
    | some (LSDVal.parsable t) => Except.ok (some t)
    | some LSDVal.badString => Except.ok none
    | some LSDVal.nonString => Except.error (PyErr.typeError "fromisoformat")

/-- `StateManager.get_synced_transaction_ids` (src/state_manager.py
lines 122-137): same catch set; `set(...)` on a non-iterable value raises
`TypeError`, uncaught. -/
def get_synced_transaction_ids (f : FileRead) : Except PyErr (Finset String) :=
  match f with
  | FileRead.absent => Except.ok ∅
  | FileRead.ioError => Except.error PyErr.osError
  | FileRead.badJson => Except.ok ∅
  | FileRead.ok st =>
    match st.synced_transaction_ids with
    | none => Except.ok ∅
    | some (IdsVal.iterable ids) => Except.ok ids.toFinset
    | some IdsVal.nonIterable => Except.error (PyErr.typeError "not iterable")

/-- `StateManager.get_synced_expense_ids` (src/state_manager.py
lines 170-185): identical shape over the `synced_expense_ids` key. -/
def get_synced_expense_ids (f : FileRead) : Except PyErr (Finset String) :=
  match f with
  | FileRead.absent => Except.ok ∅
  | FileRead.ioError => Except.error PyErr.osError
  | FileRead.badJson => Except.ok ∅
  | FileRead.ok st =>
    match st.synced_expense_ids with
    | none => Except.ok ∅
    | some (IdsVal.iterable ids) => Except.ok ids.toFinset
    | some IdsVal.nonIterable => Except.error (PyErr.typeError "not iterable")

/-- `StateManager.get_sync_start_date` (src/state_manager.py lines 87-120):
returns the loaded last sync instant when one is loaded (a datetime object
is always truthy), else `end_date - timedelta(days=7)`
(`DEFAULT_LOOKBACK_DAYS = 7`, line 13); an exception from the load
propagates.  The timezone normalization of `end_date` is the identity on
the single-timeline model. -/
def get_sync_start_date (f : FileRead) (endDate : Instant) : Except PyErr Instant :=
  match get_last_sync_date f with
  | Except.error e => Except.error e
  | Except.ok (some t) => Except.ok t
  | Except.ok none => Except.ok (endDate - 7)

/-- The logical cursor of one direction, as held across a run on a valid
backing file: the persisted timestamp and the two persisted id sets. -/
structure SyncState where
  last_sync_date : Option Instant
  synced_transaction_ids : Finset String
  synced_expense_ids : Finset String
deriving DecidableEq

/-- `StateManager.save_last_sync_date` (src/state_manager.py lines 56-85)
on a valid backing file: the existing JSON object is reloaded and only
`last_sync_date` (and the bookkeeping `updated_at`) are overwritten, so
both id sets are preserved. -/
def save_last_sync_date (st : SyncState) (d : Instant) : SyncState :=
  { st with last_sync_date := some d }

/-- `StateManager.add_synced_transaction_ids` (src/state_manager.py
lines 139-168) on a valid backing file: the stored id set is unioned with
the given ids; nothing is removed and the other keys are preserved. -/
def add_synced_transaction_ids (st : SyncState) (ids : List String) : SyncState :=
  { st with synced_transaction_ids := st.synced_transaction_ids ∪ ids.toFinset }

/-- `StateManager.add_synced_expense_ids` (src/state_manager.py
lines 187-216) on a valid backing file: same union shape; the source
additionally applies `str` to each id, which the string-id model absorbs. -/
def add_synced_expense_ids (st : SyncState) (ids : List String) : SyncState :=
  { st with synced_expense_ids := st.synced_expense_ids ∪ ids.toFinset }

/-! ## Synchronization engine (`main.py`, class `ynab_splitwise_transfer`) -/

/-- A transaction dictionary built for the YNAB bulk create
(src/main.py lines 125-132). -/
structure YnabTxn where
  account_id : String
  date : String
  amount : Int
  payee_name : String
  cleared : String
deriving DecidableEq, Repr

/-- The transaction built from one Splitwise owed expense
(src/main.py lines 125-132): `amount` is `int(expense.amount * 1000)`
(Python truncation toward zero), `payee_name` is the stripped description,
`date` passes through, `cleared` is the literal string. -/
def mkYnabTxn (accountId : String) (e : OwedExpense) : YnabTxn :=
  { account_id := accountId
    date := e.date
    amount := pyInt (e.amount * 1000)
    payee_name := e.description.trim
    cleared := "cleared" }

/-- The filter-and-transform loop of `sw_to_ynab` (src/main.py
lines 110-134): deleted expenses and already synced ids are skipped; each
remaining expense contributes one YNAB transaction and its id, in order. -/
def buildBatch (accountId : String) (synced : Finset String) :
    List OwedExpense → List YnabTxn × List String
  | [] => ([], [])
  | e :: rest =>
    let acc := buildBatch accountId synced rest
    if e.deleted_time.isSome then acc
    else if e.id ∈ synced then acc
    else (mkYnabTxn accountId e :: acc.1, e.id :: acc.2)

/-- `ynab_splitwise_transfer.sw_to_ynab` (src/main.py lines 80-164), the
A→B pass, given the outcome of the adapter fetch and the YNAB bulk-create
call as parameters (they are remote calls).  Returns the persisted cursor
after the pass together with the outcome; on a raised error the persisted
cursor is whatever had been saved so far.  The paths:
  * fetch raises → re-raise, nothing saved;
  * no expenses → save the window end;
  * expenses but empty batch after filtering → save the window end;
  * non-empty batch → bulk create; on success union the batch ids and save
    the window end; on failure re-raise with nothing saved. -/
def sw_to_ynab (accountId : String) (endDate : Instant) (st : SyncState)
    (fetch : Except PyErr (List OwedExpense))
    (create : List YnabTxn → Except PyErr Unit) :
    SyncState × Except PyErr Unit :=
  match fetch with
  | Except.error e => (st, Except.error e)
  | Except.ok expenses =>
    if expenses.isEmpty then
      (save_last_sync_date st endDate, Except.ok ())
    else
      let batch := buildBatch accountId st.synced_expense_ids expenses
      if batch.1.isEmpty then
        (save_last_sync_date st endDate, Except.ok ())
      else
        match create batch.1 with
        | Except.error e => (st, Except.error e)
        | Except.ok _ =>
          let st1 := if batch.2.isEmpty then st else add_synced_expense_ids st batch.2
          (save_last_sync_date st1 endDate, Except.ok ())

/-- A YNAB transaction as `ynab_to_sw` reads it. -/
structure BTxn where
  id : String
  payee_name : Option String
  amount : Int
  date : String
  flag_color : Option String
  deleted : Bool
deriving DecidableEq, Repr

/-- The candidate filter of `ynab_to_sw` (src/main.py lines 206-211): keep
transactions carrying the configured flag color, not already synced, and
not deleted. -/
def filterFlagged (flag : String) (synced : Finset String)
    (ts : List BTxn) : List BTxn :=
  ts.filter (fun t =>
    decide (t.flag_color = some flag) && !(decide (t.id ∈ synced)) && !t.deleted)

/-- Outcomes of the two remote calls made for one candidate transaction:
the Splitwise expense creation and the subsequent YNAB flag clear. -/
structure BOutcome where
  createOk : Bool
  flagOk : Bool

/-- The per-transaction loop of `ynab_to_sw` (src/main.py lines 223-268):
when expense creation succeeds the id is appended to the synced list even
if the flag clear fails (the inner `except` only logs a warning); when
expense creation fails the outer `except` counts the failure and the loop
continues with the next transaction.  Returns the synced ids, in order, and
the failure count. -/
def processFlagged (oracle : BTxn → BOutcome) :
    List BTxn → List String × Nat
  | [] => ([], 0)
  | t :: rest =>
    let acc := processFlagged oracle rest
    if (oracle t).createOk then (t.id :: acc.1, acc.2)
    else (acc.1, acc.2 + 1)

/-- `ynab_splitwise_transfer.ynab_to_sw` (src/main.py lines 166-287), the
B→A pass, given the configured flag color, the resolved group id, and the
outcomes of the remote calls as parameters.  The paths:
  * no flag color configured, or group unresolved → return, nothing saved;
  * fetch raises → re-raise, nothing saved;
  * no flagged candidates after filtering → save the window end;
  * otherwise process each candidate, union the ids whose expense creation
    succeeded, and save the window end regardless of the failure count. -/
def ynab_to_sw (flagColor : Option String) (groupId : Option Nat)
    (endDate : Instant) (st : SyncState)
    (fetch : Except PyErr (List BTxn)) (oracle : BTxn → BOutcome) :
    SyncState × Except PyErr Unit :=
  match flagColor with
  | none => (st, Except.ok ())
  | some flag =>
    match groupId with
    | none => (st, Except.ok ())
    | some _ =>
      match fetch with
      | Except.error e => (st, Except.error e)
      | Except.ok transactions =>
        let flagged := filterFlagged flag st.synced_transaction_ids transactions
        if flagged.isEmpty then
          (save_last_sync_date st endDate, Except.ok ())
        else
          let res := processFlagged oracle flagged
          let st1 := if res.1.isEmpty then st else add_synced_transaction_ids st res.1
          (save_last_sync_date st1 endDate, Except.ok ())

/-! ## Claims -/

/-- C1 (code bug evaluation): the fetch step of `sw_to_ynab` raises
`TypeError` for every current user and every upstream database.  The call
site (src/main.py line 98) passes the keyword `updated_after`, which the
signature of `SW.get_expenses` (src/sw.py line 31) does not accept, so the
call fails at binding time: the `updated_after` filter is never handed to
the adapter and the fetch never succeeds, contradicting the claim and the
stated intent of the comment at src/main.py lines 88-94. -/
theorem C1_fetch_always_raises_typeError (uid : Nat) (upstream : List SWExpense) :
    swToYnabFetchCall uid upstream =
      Except.error (PyErr.typeError "unexpected keyword argument") := rfl

/-- A concrete upstream expense with two repayments touching user 1: user 1
lends 5 to user 2 in the first repayment and borrows 7 from user 3 in the
second. -/
def c2Expense : SWExpense :=
  { id := 42
    description := "dinner"
    deletedAt := none
    date := "2024-06-05"
    createdAt := "2024-06-05T10:00:00"
    updatedAt := "2024-06-06T10:00:00"
    repayments := [⟨1, 2, 5⟩, ⟨3, 1, 7⟩] }

/-- C2 (counterexample): on `c2Expense`, `SW.get_expenses` produces TWO
records for the single upstream expense (not exactly one), and both carry
amount 7, the signed amount of the last repayment alone, whereas the sum of
the signed per-counterparty amounts involving user 1 is -5 + 7 = 2. -/
theorem C2_counterexample :
    (get_expenses_process 1 [c2Expense]).length = 2 ∧
    (get_expenses_process 1 [c2Expense]).map OwedExpense.amount = [7, 7] ∧
    (-5 : Rat) + 7 ≠ 7 := by
  refine ⟨rfl, by decide, by norm_num⟩

/-- C2 (amended): for every current user and upstream expense, the number
of produced records equals the number of repayments (so none for an empty
repayment list, and k — not 1 — for k repayments), and every produced
record carries, not the sum, but the signed amount of the LAST repayment:
its negation when the current user is that repayment's payer, the amount
itself when the current user is its ower, and zero when the current user is
in neither role of it.  (In the source the single dictionary is appended
once per repayment and mutated in place, so all entries alias the state
left by the last iteration.) -/
theorem C2_amended (uid : Nat) (e : SWExpense) :
    (processExpense uid e).length = e.repayments.length ∧
    ∀ r, e.repayments.getLast? = some r →
      ∀ o ∈ processExpense uid e,
        o.amount = (if r.fromUser = uid then -r.amount
                    else if r.toUser = uid then r.amount else 0) := by
  constructor
  · unfold processExpense
    match h : e.repayments.getLast? with
    | none => simp [List.getLast?_eq_none_iff.mp h]
    | some r => simp
  · intro r hr o ho
    unfold processExpense at ho
    rw [hr] at ho
    rw [List.eq_of_mem_replicate ho, owedRecord]

/-- Witness for C2 (amended), at user 1 and `c2Expense`: two records are
produced and the record of the last repayment carries amount 7. -/
theorem C2_amended_witness :
    (processExpense 1 c2Expense).length = 2 ∧
    (owedRecord 1 c2Expense ⟨3, 1, 7⟩).amount = 7 := by
  refine ⟨(C2_amended 1 c2Expense).1, ?_⟩
  have h := (C2_amended 1 c2Expense).2 ⟨3, 1, 7⟩ rfl
      (owedRecord 1 c2Expense ⟨3, 1, 7⟩) (by decide)
  rw [h]
  norm_num

/-- C10: `SW.get_expenses` always hands the upstream query the fixed page
limit `SW.limit = 100`; hence for every database and window predicate at
most 100 upstream expense objects are fetched in one pass, and when more
than 100 expenses match the window exactly 100 are fetched — the records
beyond the limit are not fetched or processed by that pass. -/
theorem C10_page_limit (query : SWExpense → Bool) (db : List SWExpense) :
    SW.limit = 100 ∧
    (get_expenses_fetch query db).length ≤ 100 ∧
    (100 < (db.filter query).length → (get_expenses_fetch query db).length = 100) := by
  refine ⟨rfl, ?_, ?_⟩
  · simp only [get_expenses_fetch, apiGetExpenses, SW.limit]
    exact List.length_take_le 100 (db.filter query)
  · intro h
    simp only [get_expenses_fetch, apiGetExpenses, SW.limit, List.length_take]
    omega

/-- A database of 101 identical upstream expenses. -/
def c10Db : List SWExpense :=
  List.replicate 101 ⟨0, "x", none, "2024-06-01", "c", "u", []⟩

/-- Witness for C10: a window matching 101 expenses yields exactly 100. -/
theorem C10_page_limit_witness :
    (get_expenses_fetch (fun _ => true) c10Db).length = 100 := by
  refine (C10_page_limit (fun _ => true) c10Db).2.2 ?_
  simp [c10Db]

/-- C3: in the A→B pass, when the fetch succeeded and the filtered batch is
non-empty but the single YNAB bulk-create call fails, the error is
propagated and the persisted cursor is exactly the one from before the run:
neither the synced expense id set nor `last_sync_date` is advanced, so the
next invocation recomputes the very same batch from the very same state. -/
theorem C3_create_failure_preserves_state (accountId : String) (endDate : Instant)
    (st : SyncState) (expenses : List OwedExpense)
    (create : List YnabTxn → Except PyErr Unit) (err : PyErr)
    (hbatch : (buildBatch accountId st.synced_expense_ids expenses).1 ≠ [])
    (hcreate : create (buildBatch accountId st.synced_expense_ids expenses).1 =
      Except.error err) :
    sw_to_ynab accountId endDate st (Except.ok expenses) create =
      (st, Except.error err) := by
  have hne : expenses.isEmpty = false := by
    cases expenses with
    | nil => exact absurd rfl hbatch
    | cons a l => rfl
  have hb : (buildBatch accountId st.synced_expense_ids expenses).1.isEmpty = false := by
    simpa using hbatch
  simp [sw_to_ynab, hne, hb, hcreate]

/-- A concrete non-deleted, unsynced owed expense. -/
def c3Expense : OwedExpense :=
  { id := "7"
    description := "groceries"
    deleted_time := none
    date := "2024-06-05"
    created_time := "c"
    updated_time := "u"
    amount := 5 }

/-- Witness for C3: with one fresh expense and a failing bulk create, the
pass returns the untouched cursor and the propagated error. -/
theorem C3_create_failure_preserves_state_witness :
    sw_to_ynab "acct" 10 ⟨some 3, ∅, ∅⟩ (Except.ok [c3Expense])
        (fun _ => Except.error (PyErr.apiError "boom")) =
      (⟨some 3, ∅, ∅⟩, Except.error (PyErr.apiError "boom")) := by
  exact C3_create_failure_preserves_state "acct" 10 ⟨some 3, ∅, ∅⟩ [c3Expense]
    (fun _ => Except.error (PyErr.apiError "boom")) (PyErr.apiError "boom")
    (by decide) rfl

/-- C4: in the B→A per-transaction loop, the ids recorded as synced are
exactly the ids of the candidates whose Splitwise expense creation
succeeded: the flag-clear outcome never affects the recorded set (a flag
failure only logs a warning), and a candidate whose creation fails is left
out while every later candidate is still processed — one failing record
never aborts the batch.  Consequently, in the full pass the persisted
synced set becomes the previous set unioned with exactly those ids. -/
theorem C4_per_record_isolation :
    (∀ (oracle : BTxn → BOutcome) (ts : List BTxn),
      (processFlagged oracle ts).1 =
        (ts.filter (fun t => (oracle t).createOk)).map BTxn.id) ∧
    (∀ (flag : String) (gid : Nat) (endDate : Instant) (st : SyncState)
        (ts : List BTxn) (oracle : BTxn → BOutcome),
      ((ynab_to_sw (some flag) (some gid) endDate st (Except.ok ts) oracle).1).synced_transaction_ids =
        st.synced_transaction_ids ∪
          (((filterFlagged flag st.synced_transaction_ids ts).filter
              (fun t => (oracle t).createOk)).map BTxn.id).toFinset) := by
  have key : ∀ (oracle : BTxn → BOutcome) (ts : List BTxn),
      (processFlagged oracle ts).1 =
        (ts.filter (fun t => (oracle t).createOk)).map BTxn.id := by
    intro oracle ts
    induction ts with
    | nil => rfl
    | cons t rest ih =>
      by_cases h : (oracle t).createOk
      · simp [processFlagged, h, ih]
      · simp [processFlagged, h, ih]
  refine ⟨key, ?_⟩
  intro flag gid endDate st ts oracle
  by_cases hemp : (filterFlagged flag st.synced_transaction_ids ts).isEmpty
  · have h0 : filterFlagged flag st.synced_transaction_ids ts = [] := by
      simpa using hemp
    simp [ynab_to_sw, hemp, h0, save_last_sync_date]
  · by_cases hres : (processFlagged oracle
        (filterFlagged flag st.synced_transaction_ids ts)).1.isEmpty
    · have h1 : ((filterFlagged flag st.synced_transaction_ids ts).filter
          (fun t => (oracle t).createOk)).map BTxn.id = [] := by
        rw [← key]
        simpa using hres
      simp [ynab_to_sw, hemp, hres, save_last_sync_date, h1]
    · have hex : ¬ ∀ a ∈ filterFlagged flag st.synced_transaction_ids ts,
          (oracle a).createOk = false := by
        intro hall
        apply hres
        rw [List.isEmpty_eq_true, key, List.map_eq_nil_iff, List.filter_eq_nil_iff]
        intro a ha
        simp [hall a ha]
      simp [ynab_to_sw, hemp, hres, save_last_sync_date,
        add_synced_transaction_ids, key, hex]

/-- Shape of the cursor after an A→B pass: either an error was raised and
the cursor is untouched, or the pass saved the window end over the previous
state, possibly after unioning a batch of expense ids into it. -/
theorem sw_to_ynab_run_shape (a : String) (endDate : Instant) (st : SyncState)
    (fetch : Except PyErr (List OwedExpense))
    (create : List YnabTxn → Except PyErr Unit) :
    ((sw_to_ynab a endDate st fetch create).1 = st ∧
      (sw_to_ynab a endDate st fetch create).2 ≠ Except.ok ()) ∨
    (∃ ids : List String,
      (sw_to_ynab a endDate st fetch create).1 =
        save_last_sync_date (add_synced_expense_ids st ids) endDate) ∨
    (sw_to_ynab a endDate st fetch create).1 = save_last_sync_date st endDate := by
  cases fetch with
  | error e =>
    exact Or.inl ⟨rfl, by simp [sw_to_ynab]⟩
  | ok expenses =>
    by_cases h1 : expenses.isEmpty
    · exact Or.inr (Or.inr (by simp [sw_to_ynab, h1]))
    · by_cases h2 : (buildBatch a st.synced_expense_ids expenses).1.isEmpty
      · exact Or.inr (Or.inr (by simp [sw_to_ynab, h1, h2]))
      · cases h3 : create (buildBatch a st.synced_expense_ids expenses).1 with
        | error e =>
          refine Or.inl ⟨?_, ?_⟩ <;> simp [sw_to_ynab, h1, h2, h3]
        | ok u =>
          by_cases h4 : (buildBatch a st.synced_expense_ids expenses).2.isEmpty
          · exact Or.inr (Or.inr (by simp [sw_to_ynab, h1, h2, h3, h4]))
          · exact Or.inr (Or.inl ⟨(buildBatch a st.synced_expense_ids expenses).2,
              by simp [sw_to_ynab, h1, h2, h3, h4]⟩)

/-- Shape of the cursor after a B→A pass: either nothing was saved and the
cursor is untouched (guards or a raised error), or the pass saved the
window end over the previous state, possibly after unioning a batch of
transaction ids into it. -/
theorem ynab_to_sw_run_shape (fc : Option String) (gid : Option Nat)
    (endDate : Instant) (st : SyncState) (fetch : Except PyErr (List BTxn))
    (oracle : BTxn → BOutcome) :
    (ynab_to_sw fc gid endDate st fetch oracle).1 = st ∨
    (∃ ids : List String,
      (ynab_to_sw fc gid endDate st fetch oracle).1 =
        save_last_sync_date (add_synced_transaction_ids st ids) endDate) ∨
    (ynab_to_sw fc gid endDate st fetch oracle).1 = save_last_sync_date st endDate := by
  cases fc with
  | none => exact Or.inl rfl
  | some flag =>
    cases gid with
    | none => exact Or.inl rfl
    | some g =>
      cases fetch with
      | error e => exact Or.inl rfl
      | ok ts =>
        by_cases h1 : (filterFlagged flag st.synced_transaction_ids ts).isEmpty
        · exact Or.inr (Or.inr (by simp [ynab_to_sw, h1]))
        · by_cases h2 : (processFlagged oracle
              (filterFlagged flag st.synced_transaction_ids ts)).1.isEmpty
          · exact Or.inr (Or.inr (by simp [ynab_to_sw, h1, h2]))
          · exact Or.inr (Or.inl ⟨(processFlagged oracle
                (filterFlagged flag st.synced_transaction_ids ts)).1,
              by simp [ynab_to_sw, h1, h2]⟩)

/-- C5: cursor invariants.  The save operation preserves both persisted id
sets; the add operations only union ids in, never removing any; across any
A→B or B→A pass the persisted id set of the direction only grows, whatever
the outcome; and across any successful pass whose window end is at or after
the stored timestamp — the run `now` is taken after every earlier save —
the stored `last_sync_date` is non-decreasing. -/
theorem C5_cursor_invariants :
    (∀ (st : SyncState) (d : Instant),
      (save_last_sync_date st d).synced_expense_ids = st.synced_expense_ids ∧
      (save_last_sync_date st d).synced_transaction_ids = st.synced_transaction_ids) ∧
    (∀ (st : SyncState) (ids : List String),
      st.synced_expense_ids ⊆ (add_synced_expense_ids st ids).synced_expense_ids ∧
      st.synced_transaction_ids ⊆
        (add_synced_transaction_ids st ids).synced_transaction_ids) ∧
    (∀ (a : String) (endDate : Instant) (st : SyncState)
        (fetch : Except PyErr (List OwedExpense))
        (create : List YnabTxn → Except PyErr Unit),
      st.synced_expense_ids ⊆
        (sw_to_ynab a endDate st fetch create).1.synced_expense_ids) ∧
    (∀ (fc : Option String) (gid : Option Nat) (endDate : Instant)
        (st : SyncState) (fetch : Except PyErr (List BTxn))
        (oracle : BTxn → BOutcome),
      st.synced_transaction_ids ⊆
        (ynab_to_sw fc gid endDate st fetch oracle).1.synced_transaction_ids) ∧
    (∀ (a : String) (endDate : Instant) (st : SyncState)
        (fetch : Except PyErr (List OwedExpense))
        (create : List YnabTxn → Except PyErr Unit) (t0 : Instant),
      st.last_sync_date = some t0 → t0 ≤ endDate →
      (sw_to_ynab a endDate st fetch create).2 = Except.ok () →
      ∃ t1, (sw_to_ynab a endDate st fetch create).1.last_sync_date = some t1 ∧
        t0 ≤ t1) ∧
    (∀ (fc : Option String) (gid : Option Nat) (endDate : Instant)
        (st : SyncState) (fetch : Except PyErr (List BTxn))
        (oracle : BTxn → BOutcome) (t0 : Instant),
      st.last_sync_date = some t0 → t0 ≤ endDate →
      (ynab_to_sw fc gid endDate st fetch oracle).2 = Except.ok () →
      ∃ t1, (ynab_to_sw fc gid endDate st fetch oracle).1.last_sync_date = some t1 ∧
        t0 ≤ t1) := by
  refine ⟨?_, ?_, ?_, ?_, ?_, ?_⟩
  · intro st d
    exact ⟨rfl, rfl⟩
  · intro st ids
    exact ⟨Finset.subset_union_left, Finset.subset_union_left⟩
  · intro a endDate st fetch create
    rcases sw_to_ynab_run_shape a endDate st fetch create with h | ⟨ids, h⟩ | h
    · rw [h.1]
    · rw [h]
      exact Finset.subset_union_left
    · rw [h]
      exact Finset.Subset.refl _
  · intro fc gid endDate st fetch oracle
    rcases ynab_to_sw_run_shape fc gid endDate st fetch oracle with h | ⟨ids, h⟩ | h
    · rw [h]
    · rw [h]
      exact Finset.subset_union_left
    · rw [h]
      exact Finset.Subset.refl _
  · intro a endDate st fetch create t0 ht0 hle hok
    rcases sw_to_ynab_run_shape a endDate st fetch create with h | ⟨ids, h⟩ | h
    · exact absurd hok h.2
    · exact ⟨endDate, by rw [h]; rfl, hle⟩
    · exact ⟨endDate, by rw [h]; rfl, hle⟩
  · intro fc gid endDate st fetch oracle t0 ht0 hle hok
    rcases ynab_to_sw_run_shape fc gid endDate st fetch oracle with h | ⟨ids, h⟩ | h
    · exact ⟨t0, by rw [h]; exact ht0, le_refl t0⟩
    · exact ⟨endDate, by rw [h]; rfl, hle⟩
    · exact ⟨endDate, by rw [h]; rfl, hle⟩

/-- Witness for C5, on a successful empty A→B pass over a cursor holding
timestamp 3 with window end 10: the saved timestamp is at least 3. -/
theorem C5_cursor_invariants_witness :
    ∃ t1, (sw_to_ynab "acct" 10 ⟨some 3, ∅, ∅⟩ (Except.ok [])
        (fun _ => Except.ok ())).1.last_sync_date = some t1 ∧ (3 : Instant) ≤ t1 := by
  exact C5_cursor_invariants.2.2.2.2.1 "acct" 10 ⟨some 3, ∅, ∅⟩ (Except.ok [])
    (fun _ => Except.ok ()) 3 rfl (by norm_num) rfl

/-- C6: a sync pass of either direction whose fetch yields zero candidate
records after filtering still saves the window end as the new
`last_sync_date` and succeeds: in the A→B pass when the filtered batch is
empty (whether or not the raw fetch was empty), and in the B→A pass, with
both guards satisfied, when no flagged unsynced undeleted transaction
remains. -/
theorem C6_empty_pass_advances_cursor
    (accountId flag : String) (gid : Nat) (endDate : Instant)
    (st st2 : SyncState) (expenses : List OwedExpense) (ts : List BTxn)
    (create : List YnabTxn → Except PyErr Unit) (oracle : BTxn → BOutcome)
    (hbatch : (buildBatch accountId st.synced_expense_ids expenses).1 = [])
    (hflag : filterFlagged flag st2.synced_transaction_ids ts = []) :
    sw_to_ynab accountId endDate st (Except.ok expenses) create =
      (save_last_sync_date st endDate, Except.ok ()) ∧
    (sw_to_ynab accountId endDate st (Except.ok expenses) create).1.last_sync_date =
      some endDate ∧
    ynab_to_sw (some flag) (some gid) endDate st2 (Except.ok ts) oracle =
      (save_last_sync_date st2 endDate, Except.ok ()) ∧
    (ynab_to_sw (some flag) (some gid) endDate st2 (Except.ok ts) oracle).1.last_sync_date =
      some endDate := by
  have h1 : sw_to_ynab accountId endDate st (Except.ok expenses) create =
      (save_last_sync_date st endDate, Except.ok ()) := by
    by_cases he : expenses.isEmpty
    · simp [sw_to_ynab, he]
    · simp [sw_to_ynab, he, hbatch]
  have h2 : ynab_to_sw (some flag) (some gid) endDate st2 (Except.ok ts) oracle =
      (save_last_sync_date st2 endDate, Except.ok ()) := by
    simp [ynab_to_sw, hflag]
  refine ⟨h1, ?_, h2, ?_⟩
  · rw [h1]
    rfl
  · rw [h2]
    rfl

/-- Witness for C6: one already-synced expense filters down to an empty
batch, and an empty transaction fetch has no flagged candidate; both passes
save the window end 10. -/
theorem C6_empty_pass_advances_cursor_witness :
    sw_to_ynab "acct" 10 ⟨some 3, ∅, {"7"}⟩ (Except.ok [c3Expense])
        (fun _ => Except.ok ()) =
      (save_last_sync_date ⟨some 3, ∅, {"7"}⟩ 10, Except.ok ()) ∧
    ynab_to_sw (some "blue") (some 5) 10 ⟨some 3, ∅, ∅⟩ (Except.ok [])
        (fun _ => ⟨true, true⟩) =
      (save_last_sync_date ⟨some 3, ∅, ∅⟩ 10, Except.ok ()) := by
  have h := C6_empty_pass_advances_cursor "acct" "blue" 5 10
    ⟨some 3, ∅, {"7"}⟩ ⟨some 3, ∅, ∅⟩ [c3Expense] []
    (fun _ => Except.ok ()) (fun _ => ⟨true, true⟩) (by decide) rfl
  exact ⟨h.1, h.2.2.1⟩

/-- C7: `get_sync_start_date` returns the loaded persisted timestamp when
one is loaded, and otherwise — no state file, or no usable stored value —
returns the window end minus exactly 7 days (`DEFAULT_LOOKBACK_DAYS`); in
particular, with no prior state file and window end 2024-06-08 it returns
2024-06-01. -/
theorem C7_window_start (f : FileRead) (endDate : Instant) :
    (∀ t : Instant, get_last_sync_date f = Except.ok (some t) →
      get_sync_start_date f endDate = Except.ok t) ∧
    (get_last_sync_date f = Except.ok none →
      get_sync_start_date f endDate = Except.ok (endDate - 7)) ∧
    get_sync_start_date FileRead.absent ((rataDie 2024 6 8 : Int) : Rat) =
      Except.ok ((rataDie 2024 6 1 : Int) : Rat) := by
  refine ⟨?_, ?_, ?_⟩
  · intro t h
    simp [get_sync_start_date, h]
  · intro h
    simp [get_sync_start_date, h]
  · have h : rataDie 2024 6 8 - 7 = rataDie 2024 6 1 := by decide
    simp only [get_sync_start_date, get_last_sync_date]
    rw [← h]
    push_cast
    ring_nf

/-- Witness for C7: a state file storing timestamp 5 yields window start 5
whatever the window end. -/
theorem C7_window_start_witness :
    get_sync_start_date (FileRead.ok ⟨some (LSDVal.parsable 5), none, none⟩) 9 =
      Except.ok 5 := by
  exact (C7_window_start (FileRead.ok ⟨some (LSDVal.parsable 5), none, none⟩) 9).1 5 rfl

/-- C8 (counterexample): a state file that exists but cannot be read — the
claimed *unreadable* case — makes all three load operations raise `OSError`
instead of returning the logically-empty value: only `JSONDecodeError`,
`KeyError` and `ValueError` are caught by the source, not `OSError`. -/
theorem C8_counterexample :
    get_last_sync_date FileRead.ioError = Except.error PyErr.osError ∧
    get_synced_transaction_ids FileRead.ioError = Except.error PyErr.osError ∧
    get_synced_expense_ids FileRead.ioError = Except.error PyErr.osError ∧
    get_last_sync_date FileRead.ioError ≠ Except.ok none := by
  refine ⟨rfl, rfl, rfl, by simp [get_last_sync_date]⟩

/-- C8 (amended): the three state-load operations return the logically
empty value and do not raise when the backing file is absent or when its
content fails in one of the caught error classes (JSON decoding, a missing
key, a stored date string rejected with `ValueError`); but a file that
exists and cannot be read (OS-level read error), or a stored value of an
unexpected type (`TypeError` from `fromisoformat` or `set`), makes the load
raise. -/
theorem C8_amended (f : FileRead) (st : StateJson)
    (hf : f = FileRead.absent ∨ f = FileRead.badJson) :
    (get_last_sync_date f = Except.ok none ∧
     get_synced_transaction_ids f = Except.ok ∅ ∧
     get_synced_expense_ids f = Except.ok ∅) ∧
    (st.last_sync_date = some LSDVal.badString →
      get_last_sync_date (FileRead.ok st) = Except.ok none) ∧
    get_last_sync_date FileRead.ioError = Except.error PyErr.osError ∧
    get_last_sync_date (FileRead.ok ⟨some LSDVal.nonString, none, none⟩) =
      Except.error (PyErr.typeError "fromisoformat") := by
  refine ⟨?_, ?_, rfl, rfl⟩
  · rcases hf with h | h <;> subst h <;> exact ⟨rfl, rfl, rfl⟩
  · intro h
    simp [get_last_sync_date, h]

/-- Witness for C8 (amended): an absent state file loads as the empty
cursor without raising. -/
theorem C8_amended_witness :
    get_last_sync_date FileRead.absent = Except.ok none ∧
    get_synced_transaction_ids FileRead.absent = Except.ok ∅ ∧
    get_synced_expense_ids FileRead.absent = Except.ok ∅ := by
  exact (C8_amended FileRead.absent ⟨none, none, none⟩ (Or.inl rfl)).1


/-- A non-deleted, unsynced owed expense with net amount 1.9996, on which
truncation and rounding of the milliunit value differ. -/
def c9Expense : OwedExpense :=
  { id := "9"
    description := "  Lunch  "
    deleted_time := none
    date := "2024-06-05"
    created_time := "c"
    updated_time := "u"
    amount := 19996 / 10000 }

/-- C9 (counterexample): the non-deleted unsynced record `c9Expense` is
transformed into the batch, but its produced amount is the truncation 1999
of 1999.6 milliunits, whereas exact rounding would give 2000: the source
computes `int(amount * 1000)`, which truncates toward zero, not `round`. -/
theorem C9_counterexample :
    buildBatch "acct" ∅ [c9Expense] = ([mkYnabTxn "acct" c9Expense], ["9"]) ∧
    (mkYnabTxn "acct" c9Expense).amount = 1999 ∧
    round (c9Expense.amount * 1000) = (2000 : Int) ∧
    (1999 : Int) ≠ 2000 := by
  refine ⟨by simp [buildBatch, c9Expense], ?_, ?_, by decide⟩
  · show pyInt (c9Expense.amount * 1000) = 1999
    rw [pyInt, if_pos (by norm_num [c9Expense])]
    norm_num [c9Expense]
  · rw [round_eq]
    norm_num [c9Expense]

/-- Every in-batch expense contributes its transformed transaction to the
batch handed to the bulk create. -/
theorem mem_buildBatch (accountId : String) (synced : Finset String)
    (expenses : List OwedExpense) (e : OwedExpense)
    (hmem : e ∈ expenses) (hdel : e.deleted_time = none) (hsync : e.id ∉ synced) :
    mkYnabTxn accountId e ∈ (buildBatch accountId synced expenses).1 := by
  induction expenses with
  | nil => cases hmem
  | cons a rest ih =>
    rcases List.mem_cons.mp hmem with h | h
    · subst h
      simp [buildBatch, hdel, hsync]
    · by_cases h1 : a.deleted_time.isSome
      · simpa [buildBatch, h1] using ih h
      · by_cases h2 : a.id ∈ synced
        · simpa [buildBatch, h1, h2] using ih h
        · simp [buildBatch, h1, h2]
          exact Or.inr (ih h)

/-- C9 (amended): every non-deleted, not-yet-synced record of the fetched
list is transformed into the batch, with amount `int(net_amount * 1000)` —
Python truncation toward zero, which agrees with exact rounding whenever
the milliunit value is integral, but not in general — the whitespace-trimmed
description as payee, the date passed through unchanged, and cleared fixed
to the literal; a net amount of -12.50 produces -12500. -/
theorem C9_amount_transform (accountId : String) (synced : Finset String)
    (expenses : List OwedExpense) (e : OwedExpense)
    (hmem : e ∈ expenses) (hdel : e.deleted_time = none) (hsync : e.id ∉ synced) :
    mkYnabTxn accountId e ∈ (buildBatch accountId synced expenses).1 ∧
    (mkYnabTxn accountId e).amount = pyInt (e.amount * 1000) ∧
    (mkYnabTxn accountId e).payee_name = e.description.trim ∧
    (mkYnabTxn accountId e).date = e.date ∧
    (mkYnabTxn accountId e).cleared = "cleared" ∧
    pyInt ((-125 : Rat) / 10 * 1000) = -12500 := by
  refine ⟨mem_buildBatch accountId synced expenses e hmem hdel hsync,
    rfl, rfl, rfl, rfl, ?_⟩
  rw [pyInt, if_neg (by norm_num)]
  rw [show (-125 : Rat) / 10 * 1000 = ((-12500 : Int) : Rat) by norm_num]
  exact Int.ceil_intCast _

/-- Witness for C9 (amended): the fresh record with net amount -12.50 lands
in the batch as a -12500 milliunit cleared transaction. -/
theorem C9_amount_transform_witness :
    mkYnabTxn "acct" ⟨"3", " cafe ", none, "2024-06-02", "c", "u", -125 / 10⟩ ∈
      (buildBatch "acct" ∅
        [⟨"3", " cafe ", none, "2024-06-02", "c", "u", -125 / 10⟩]).1 ∧
    (mkYnabTxn "acct" ⟨"3", " cafe ", none, "2024-06-02", "c", "u", -125 / 10⟩).amount =
      -12500 := by
  have h := C9_amount_transform "acct" ∅
    [⟨"3", " cafe ", none, "2024-06-02", "c", "u", -125 / 10⟩]
    ⟨"3", " cafe ", none, "2024-06-02", "c", "u", -125 / 10⟩
    (by simp) rfl (by simp)
  refine ⟨h.1, ?_⟩
  rw [h.2.1]
  exact h.2.2.2.2.2
